import Mathlib

/-!
Verification development for the `reefer` reference-state library.

The embedding follows `src/core.ts` (RefStateManager), `src/server/storage.ts`
(MemoryStorage) and `src/server/middleware.ts` (generateRandomString and the
create endpoint). JavaScript strings are modelled as lists of characters
(`Str`). External collaborators that the source treats as opaque capabilities
(the AES cipher from crypto-js, `encodeURIComponent`/`decodeURIComponent`,
`JSON.stringify`/`JSON.parse`, and the HTTP fetch round trip of the server
path) are modelled as explicit function parameters, exactly as the spec scopes
them out; everything the repository itself implements is translated directly.
-/

/-- Strings of the embedded program: JavaScript strings as lists of characters. -/
abbrev Str := List Char

/-- Character-by-character prefix test, recursing on the candidate prefix. -/
def prefixMatches : Str → Str → Bool
  | [], _ => true
  | _ :: _, [] => false
  | b :: bs, a :: as => (a == b) && prefixMatches bs as

/-- Embedding of `token.startsWith(p)`: `p` is a prefix of `s`. -/
def startsWith (s p : Str) : Bool := prefixMatches p s

/-- Path marker for client-generated tokens (the literal "c:" of src/core.ts). -/
def cMarker : Str := 'c' :: ':' :: []

/-- Path marker for server-generated tokens (the literal "s:" of src/core.ts). -/
def sMarker : Str := 's' :: ':' :: []

/-- Error taxonomy of `RefStateErrorType` in src/types.ts. -/
inductive RefStateErrorType where
  | NETWORK
  | ENCRYPTION
  | DECRYPTION
  | NOT_FOUND
  | EXPIRED
  | INVALID
  | SERVER
deriving DecidableEq, Repr

/-- Observable side effects of the manager: a `fetch` of the server path, an
`emitEvent(ERROR, e)` carrying the type of the emitted `RefStateError`, and a
debug-level `this.log(...)` call. -/
inductive Ev where
  | serverCall
  | errorEvent (t : RefStateErrorType)
  | debugLog
deriving DecidableEq, Repr

/-- Reference-id formats of `ReferenceIdFormat` in src/types.ts. -/
inductive ReferenceIdFormat where
  | STRING
  | HEX
  | BASE64
deriving DecidableEq, Repr

/-- Client-side payload `ClientRefState` of src/types.ts, as it comes back from
`JSON.parse`: the `docs` field may be absent (`undefined`), which the source
guards with `docs || []`. -/
structure ClientRefState where
  docs : Option (List Str)
  timestamp : Nat
  client : Bool
  name : Option Str
deriving DecidableEq, Repr

/-- Payload object literal built inside `createClientRefState` in src/core.ts:
`{ docs: docIds, timestamp: Date.now(), client: true, name: name || undefined }`. -/
def mkPayload (docIds : List Str) (name : Str) (ts : Nat) : ClientRefState :=
  { docs := some docIds
    timestamp := ts
    client := true
    name := if name = [] then none else some name }

/-- External collaborators used by the client path, modelled as opaque
capabilities exactly as the spec scopes them out: the crypto-js AES cipher
(`none` models a thrown exception, or for decryption also garbage output that
cannot be used), the URL escaping pair, and JSON serialisation of the
`ClientRefState` payload. -/
structure CryptoEnv where
  aesEncrypt : Str → Str → Option Str
  aesDecrypt : Str → Str → Option Str
  encodeURIComponent : Str → Str
  decodeURIComponent : Str → Option Str
  jsonStringify : ClientRefState → Str
  jsonParse : Str → Option ClientRefState

/-- Manager configuration `RefStateOptions` of src/types.ts with the defaults
of `DEFAULT_OPTIONS` in src/core.ts. -/
structure RefStateOptions where
  maxClientDocs : Nat := 50
  refKeyLength : Nat := 16
  encryptionKey : Str := "refstate-default-key".data
  defaultExpiration : Nat := 7 * 24 * 60 * 60 * 1000
  debug : Bool := false

/-- Creation options `CreateRefStateOptions` of src/types.ts with the defaults
destructured in `createRefState` (`serverSync = true`, `salt = ''`, `name = ''`). -/
structure CreateRefStateOptions where
  serverSync : Bool := true
  salt : Str := []
  name : Str := []
  expireIn : Option Nat := none

/-- Abstraction of the `fetch` POST round trip inside `createServerRefState`:
given the document ids and the creation options it either yields the
`referenceId` of the server response or fails (network error, non-ok status,
or JSON failure — all are caught by the same `catch`). -/
def ServerCreateFn := List Str → CreateRefStateOptions → Except Unit Str

/-- Possible outcomes of the `fetch` GET round trip inside
`getServerRefDocuments`: an ok response whose JSON may or may not carry a
`documentIds` field, a 404 response, or any other failure. -/
inductive ServerGetResult where
  | ok (documentIds : Option (List Str))
  | notFound
  | failure
deriving DecidableEq, Repr

/-- Abstraction of the `fetch` GET round trip of the server resolution path. -/
def ServerGetFn := Str → ServerGetResult

/-- Embedding of `RefStateManager.getEncryptionKey`: `encryptionKey + salt`. -/
def getEncryptionKey (opts : RefStateOptions) (salt : Str) : Str :=
  opts.encryptionKey ++ salt

/-- Embedding of `RefStateManager.createClientRefState` (src/core.ts lines
92–114). Returns the result (`Except` models throw) together with the emitted
events: on cipher failure it emits an ENCRYPTION `RefStateError` via
`emitEvent(ERROR, ...)` and throws. -/
def createClientRefState (env : CryptoEnv) (opts : RefStateOptions)
    (docIds : List Str) (salt name : Str) (ts : Nat) :
    Except RefStateErrorType Str × List Ev :=
  let key := getEncryptionKey opts salt
  match env.aesEncrypt (env.jsonStringify (mkPayload docIds name ts)) key with
  | some encrypted => (.ok (cMarker ++ env.encodeURIComponent encrypted), [])
  | none => (.error .ENCRYPTION, [.errorEvent .ENCRYPTION])

/-- Embedding of `RefStateManager.createServerRefState` (src/core.ts lines
123–158): performs the fetch; on success returns `"s:" + referenceId`; on any
failure emits a NETWORK `RefStateError` via `emitEvent(ERROR, ...)` and throws. -/
def createServerRefState (srv : ServerCreateFn) (docIds : List Str)
    (copts : CreateRefStateOptions) :
    Except RefStateErrorType Str × List Ev :=
  match srv docIds copts with
  | .ok referenceId => (.ok (sMarker ++ referenceId), [.serverCall])
  | .error _ => (.error .NETWORK, [.serverCall, .errorEvent .NETWORK])

/-- Embedding of `RefStateManager.createRefState` (src/core.ts lines 57–82):
when `serverSync` is set and the list is strictly larger than `maxClientDocs`
it tries the server path, falling back to the client path on any error after a
debug log; otherwise it uses the client path directly. -/
def createRefState (env : CryptoEnv) (srv : ServerCreateFn)
    (opts : RefStateOptions) (docIds : List Str)
    (copts : CreateRefStateOptions) (ts : Nat) :
    Except RefStateErrorType Str × List Ev :=
  if copts.serverSync && decide (docIds.length > opts.maxClientDocs) then
    match createServerRefState srv docIds copts with
    | (.ok tok, tr) => (.ok tok, tr)
    | (.error _, tr) =>
      let fb := createClientRefState env opts docIds copts.salt copts.name ts
      (fb.1, tr ++ Ev.debugLog :: fb.2)
  else
    createClientRefState env opts docIds copts.salt copts.name ts

/-- Embedding of `RefStateManager.getClientRefDocuments` (src/core.ts lines
192–211): URL-decode, decrypt, JSON-parse, return `docs || []`; any failure in
the try block emits a DECRYPTION `RefStateError` and returns `[]` instead of
throwing. -/
def getClientRefDocuments (env : CryptoEnv) (opts : RefStateOptions)
    (encryptedRef : Str) (salt : Str) : List Str × List Ev :=
  match env.decodeURIComponent encryptedRef with
  | none => ([], [.errorEvent .DECRYPTION])
  | some decoded =>
    match env.aesDecrypt decoded (getEncryptionKey opts salt) with
    | none => ([], [.errorEvent .DECRYPTION])
    | some decrypted =>
      match env.jsonParse decrypted with
      | none => ([], [.errorEvent .DECRYPTION])
      | some st => (st.docs.getD [], [])

/-- Embedding of `RefStateManager.getServerRefDocuments` (src/core.ts lines
219–250): a 404 becomes a NOT_FOUND error, any other failure a NETWORK error,
each emitted via `emitEvent(ERROR, ...)` and then thrown; an ok response
yields `documentIds || []`. -/
def getServerRefDocuments (srvGet : ServerGetFn) (referenceId : Str) :
    Except RefStateErrorType (List Str) × List Ev :=
  match srvGet referenceId with
  | .ok documentIds => (.ok (documentIds.getD []), [])
  | .notFound => (.error .NOT_FOUND, [.errorEvent .NOT_FOUND])
  | .failure => (.error .NETWORK, [.errorEvent .NETWORK])

/-- Embedding of `RefStateManager.getDocumentsFromRefState` (src/core.ts lines
167–183): empty token resolves to `[]`; an "s:" token goes to the server path;
a "c:" token to the client path; anything else is treated as a legacy
client-path payload. -/
def getDocumentsFromRefState (env : CryptoEnv) (srvGet : ServerGetFn)
    (opts : RefStateOptions) (refStateToken : Str) (salt : Str) :
    Except RefStateErrorType (List Str) × List Ev :=
  if refStateToken = [] then (.ok [], [])
  else if startsWith refStateToken sMarker then
    getServerRefDocuments srvGet (refStateToken.drop 2)
  else if startsWith refStateToken cMarker then
    let r := getClientRefDocuments env opts (refStateToken.drop 2) salt
    (.ok r.1, r.2)
  else
    let r := getClientRefDocuments env opts refStateToken salt
    (.ok r.1, r.2)

/-- Data part of the record the middleware stores (src/server/middleware.ts
lines 204–209): `{documentIds, name, createdAt, salt}`. -/
structure RefRecordData where
  documentIds : List Str
  name : Str
  createdAt : Nat
  saltUsed : Bool
deriving DecidableEq, Repr

/-- Record as held by `MemoryStorage`: the stored data plus the `expiresAt`
stamp added by `set` (src/server/storage.ts lines 16–20). -/
structure StoredRecord where
  documentIds : List Str
  name : Str
  createdAt : Nat
  saltUsed : Bool
  expiresAt : Nat
deriving DecidableEq, Repr

/-- The `storage` map of `MemoryStorage` in src/server/storage.ts, as an
association list (first binding wins, as for `Map`). The proactive
`setTimeout` eviction timers are real-time effects; the model captures any
instant at which a pending timer has not yet fired, which is exactly when the
lazy checks of `get`/`has` are observable. -/
abbrev MemoryStorage := List (Str × StoredRecord)

/-- Embedding of `MemoryStorage.delete`: unconditional removal of the binding
(the timer bookkeeping has no observable effect on the map). -/
def MemoryStorage.delete (st : MemoryStorage) (id : Str) : MemoryStorage :=
  st.filter (fun p => !(p.1 == id))

/-- Embedding of `MemoryStorage.set` (src/server/storage.ts lines 16–33):
stores the data with `expiresAt = now + expireIn`, replacing any existing
record for `id`. -/
def MemoryStorage.set (st : MemoryStorage) (id : Str) (data : RefRecordData)
    (expireIn now : Nat) : MemoryStorage :=
  (id, { documentIds := data.documentIds
         name := data.name
         createdAt := data.createdAt
         saltUsed := data.saltUsed
         expiresAt := now + expireIn }) :: MemoryStorage.delete st id

/-- Embedding of `MemoryStorage.get` (src/server/storage.ts lines 35–46):
returns `null` if absent; if `data.expiresAt < Date.now()` deletes the record
and returns `null`; otherwise returns the record. The pair carries the
possibly updated map. -/
def MemoryStorage.get (st : MemoryStorage) (id : Str) (now : Nat) :
    Option StoredRecord × MemoryStorage :=
  match List.lookup id st with
  | none => (none, st)
  | some data =>
    if data.expiresAt < now then (none, MemoryStorage.delete st id)
    else (some data, st)

/-- Embedding of `MemoryStorage.has` (src/server/storage.ts lines 57–59):
`return this.storage.has(id)` — a pure presence check on the map, with no
freshness comparison against the current time. -/
def MemoryStorage.has (st : MemoryStorage) (id : Str) : Bool :=
  (List.lookup id st).isSome

/-- Lowercase hexadecimal digit for a value below 16. -/
def hexChar (n : Nat) : Char :=
  "0123456789abcdef".data.getD n '0'

/-- Embedding of `b.toString(16).padStart(2, '0')` for a byte `b < 256`. -/
def byteToHex (b : Nat) : Str :=
  [hexChar (b / 16 % 16), hexChar (b % 16)]

/-- Standard base64 alphabet used by `Buffer.toString('base64')` and `btoa`. -/
def base64Alphabet : Str :=
  "ABCDEFGHIJKLMNOPQRSTUVWXYZabcdefghijklmnopqrstuvwxyz0123456789+/".data

/-- Standard base64 encoding of a byte list (with '=' padding), the behaviour
of both `btoa` and Node's `Buffer.toString('base64')`. -/
def base64Encode : List Nat → Str
  | [] => []
  | [b0] =>
    [base64Alphabet.getD (b0 / 4) 'A',
     base64Alphabet.getD (b0 % 4 * 16) 'A', '=', '=']
  | [b0, b1] =>
    [base64Alphabet.getD (b0 / 4) 'A',
     base64Alphabet.getD (b0 % 4 * 16 + b1 / 16) 'A',
     base64Alphabet.getD (b1 % 16 * 4) 'A', '=']
  | b0 :: b1 :: b2 :: rest =>
    base64Alphabet.getD (b0 / 4) 'A' ::
    base64Alphabet.getD (b0 % 4 * 16 + b1 / 16) 'A' ::
    base64Alphabet.getD (b1 % 16 * 4 + b2 / 64) 'A' ::
    base64Alphabet.getD (b2 % 64) 'A' :: base64Encode rest

/-- Browser-branch postprocessing (src/server/middleware.ts lines 71–75):
remap '+' to '-' and '/' to '_' and strip trailing '=' padding. -/
def urlSafeBase64 (bytes : List Nat) : Str :=
  (((base64Encode bytes).reverse.dropWhile (fun c => c == '=')).reverse).map
    (fun c => if c == '+' then '-' else if c == '/' then '_' else c)

/-- Alphanumeric alphabet of the STRING branch of `generateRandomString`. -/
def stringChars : Str :=
  "ABCDEFGHIJKLMNOPQRSTUVWXYZabcdefghijklmnopqrstuvwxyz0123456789".data

/-- Number of random bytes requested by `generateRandomString`
(src/server/middleware.ts lines 33–37). -/
def requiredBytes (length : Nat) (format : ReferenceIdFormat) : Nat :=
  match format with
  | .HEX => (length + 1) / 2
  | .BASE64 => (length * 3 + 3) / 4
  | .STRING => length

/-- Embedding of `generateRandomString` (src/server/middleware.ts lines
31–91). The secure random source is modelled by explicit byte lists: `bytes`
is the first draw of `requiredBytes` bytes (Node `randomBytes`, Web Crypto, or
the `Math.random` fallback — all fill `bytes` with values below 256), and
`bytesNode` the second, fresh draw the Node base64 branch makes with
`nodeCrypto.randomBytes(requiredBytes).toString('base64')`. `isNodeEnv`
selects the Node branch of the base64 formatting. -/
def generateRandomString (isNodeEnv : Bool) (bytes bytesNode : List Nat)
    (length : Nat) (format : ReferenceIdFormat) : Str :=
  match format with
  | .HEX => ((bytes.map byteToHex).flatten).take length
  | .BASE64 =>
    if isNodeEnv then (base64Encode bytesNode).take length
    else (urlSafeBase64 bytes).take length
  | .STRING =>
    (List.range length).map
      (fun i => stringChars.getD (bytes.getD (i % bytes.length) 0 % 62) 'A')

/-- Request body of the create endpoint (src/server/middleware.ts lines
185–191). `documentIds = none` models a body whose `documentIds` field is not
an array (missing or of another JSON type), so that `Array.isArray` fails;
defaults mirror the destructuring defaults of the handler. -/
structure CreateReqBody where
  documentIds : Option (List Str)
  saltFlag : Bool := false
  name : Str := "Unnamed".data
  expireIn : Option Nat := none

/-- JavaScript `expireIn || defaultExpiration`: `undefined` and `0` are falsy. -/
def falsyOrDefault (expireIn : Option Nat) (dflt : Nat) : Nat :=
  match expireIn with
  | none => dflt
  | some n => if n = 0 then dflt else n

/-- Response of the create endpoint: either `res.status(400).json({error})` /
`res.status(500).json({error})` or the 200 `res.json({referenceId, expiresAt})`. -/
inductive CreateResponse where
  | clientError (status : Nat)
  | created (referenceId : Str) (expiresAt : Nat)
deriving DecidableEq, Repr

/-- Embedding of the POST handler registered by `createRefStateMiddleware`
(src/server/middleware.ts lines 183–219). The generated reference id (the
output of `generateReferenceId`, which is random) is passed in as
`referenceId`, and `Date.now()` as `now`. Returns the response together with
the storage map after the request. Invalid or empty `documentIds` short-circuit
with a 400 before anything is stored; otherwise the record is stored under
`referenceId` with expiry `expireIn || defaultExpiration` and the handler
responds with the reference id and the expiry stamp. -/
def createRefStateMiddlewarePost (st : MemoryStorage) (body : CreateReqBody)
    (referenceId : Str) (defaultExpiration now : Nat) :
    CreateResponse × MemoryStorage :=
  match body.documentIds with
  | none => (.clientError 400, st)
  | some docs =>
    if docs.length = 0 then (.clientError 400, st)
    else
      let expirationTime := falsyOrDefault body.expireIn defaultExpiration
      let st2 := MemoryStorage.set st referenceId
        { documentIds := docs
          name := body.name
          createdAt := now
          saltUsed := body.saltFlag } expirationTime now
      (.created referenceId (now + expirationTime), st2)

/-- Concrete identifier list used by witnesses: duplicates and order matter. -/
def wDocs : List Str := ["alpha".data, "beta".data, "beta".data]

/-- The payload `createClientRefState` builds for `wDocs` with empty name at time 0. -/
def wPayload : ClientRefState := mkPayload wDocs [] 0

/-- Concrete identifier list of exactly 50 documents, the default threshold. -/
def wDocs50 : List Str := List.replicate 50 ("d".data)

/-- Concrete identifier list of 51 documents, above the default threshold of 50. -/
def wDocs51 : List Str := List.replicate 51 ("d".data)

/-- The payload `createClientRefState` builds for `wDocs51` with empty name at time 0. -/
def wPayload51 : ClientRefState := mkPayload wDocs51 [] 0

/-- A concrete environment whose collaborators are inverses on the values the
witnesses exercise: the cipher and URL escaping are identities, JSON
serialisation is constant with a parser returning `wPayload`. -/
def envA : CryptoEnv :=
  { aesEncrypt := fun p _ => some p
    aesDecrypt := fun c _ => some c
    encodeURIComponent := fun s => s
    decodeURIComponent := fun s => some s
    jsonStringify := fun _ => "J".data
    jsonParse := fun _ => some wPayload }

/-- Variant of `envA` whose JSON parser returns the 51-document payload. -/
def envB : CryptoEnv := { envA with jsonParse := fun _ => some wPayload51 }

/-- Variant of `envA` whose URL decoding always fails, modelling a tampered
payload that `decodeURIComponent` rejects. -/
def envBad : CryptoEnv := { envA with decodeURIComponent := fun _ => none }

/-- A server create round trip that always fails. -/
def srvFail : ServerCreateFn := fun _ _ => .error ()

/-- A server create round trip that always succeeds with a fixed id. -/
def srvOk : ServerCreateFn := fun _ _ => .ok ("ID".data)

/-- A server get round trip that always fails. -/
def srvGetNone : ServerGetFn := fun _ => .failure

/-- Resolution of a token built as `"c:" + payload` always takes the client
branch on exactly the payload. -/
theorem getDocumentsFromRefState_c (env : CryptoEnv) (srvGet : ServerGetFn)
    (opts : RefStateOptions) (payload salt : Str) :
    getDocumentsFromRefState env srvGet opts (cMarker ++ payload) salt =
      (.ok (getClientRefDocuments env opts payload salt).1,
       (getClientRefDocuments env opts payload salt).2) := rfl

/-- Claim C1: for every identifier list L (including the empty list) and every
fixed encryption secret and salt, resolving the token produced by
`createRefState(L, {serverSync:false})` with `getDocumentsFromRefState` under
the same secret and salt returns exactly L, with order and duplicates
preserved. The external cipher, URL escaping and JSON collaborators are
assumed to invert each other on the values this round trip produces. -/
theorem claimC1_clientRoundTrip (env : CryptoEnv) (srv : ServerCreateFn)
    (srvGet : ServerGetFn) (opts : RefStateOptions) (docIds : List Str)
    (salt name : Str) (ts : Nat) (c : Str)
    (henc : env.aesEncrypt (env.jsonStringify (mkPayload docIds name ts))
      (getEncryptionKey opts salt) = some c)
    (hurl : env.decodeURIComponent (env.encodeURIComponent c) = some c)
    (hdec : env.aesDecrypt c (getEncryptionKey opts salt) =
      some (env.jsonStringify (mkPayload docIds name ts)))
    (hjson : env.jsonParse (env.jsonStringify (mkPayload docIds name ts)) =
      some (mkPayload docIds name ts)) :
    ∃ tok,
      (createRefState env srv opts docIds
        { serverSync := false, salt := salt, name := name } ts).1 = .ok tok ∧
      (getDocumentsFromRefState env srvGet opts tok salt).1 = .ok docIds := by
  refine ⟨cMarker ++ env.encodeURIComponent c, ?_, ?_⟩
  · show (createClientRefState env opts docIds salt name ts).1 = _
    simp [createClientRefState, henc]
  · rw [getDocumentsFromRefState_c]
    simp only [getClientRefDocuments, hurl, hdec, hjson]
    simp [mkPayload]

/-- Witness for C1 at a concrete three-element list with a duplicate. -/
theorem claimC1_witness :
    ∃ tok,
      (createRefState envA srvFail {} wDocs
        { serverSync := false, salt := [], name := [] } 0).1 = .ok tok ∧
      (getDocumentsFromRefState envA srvGetNone {} tok []).1 = .ok wDocs :=
  claimC1_clientRoundTrip envA srvFail srvGetNone {} wDocs [] [] 0
    ("J".data) rfl rfl rfl rfl

/-- Claim C6: resolving a "c:" token whose payload fails to URL-decode, to
decrypt, or to parse returns the empty identifier list, emits a
DECRYPTION-type ERROR event, and does not throw (the result is `.ok`). -/
theorem claimC6_tamperedClientToken (env : CryptoEnv) (srvGet : ServerGetFn)
    (opts : RefStateOptions) (payload salt : Str)
    (hfail : env.decodeURIComponent payload = none ∨
      ∃ d, env.decodeURIComponent payload = some d ∧
        (env.aesDecrypt d (getEncryptionKey opts salt) = none ∨
         ∃ p, env.aesDecrypt d (getEncryptionKey opts salt) = some p ∧
           env.jsonParse p = none)) :
    getDocumentsFromRefState env srvGet opts (cMarker ++ payload) salt =
      (.ok [], [Ev.errorEvent .DECRYPTION]) := by
  rw [getDocumentsFromRefState_c]
  rcases hfail with h | ⟨d, hd, h | ⟨p, hp, hj⟩⟩
  · simp [getClientRefDocuments, h]
  · simp [getClientRefDocuments, hd, h]
  · simp [getClientRefDocuments, hd, hp, hj]

/-- Witness for C6 with a payload whose URL-decoding fails. -/
theorem claimC6_witness :
    getDocumentsFromRefState envBad srvGetNone {} (cMarker ++ "zz".data) [] =
      (.ok [], [Ev.errorEvent .DECRYPTION]) :=
  claimC6_tamperedClientToken envBad srvGetNone {} ("zz".data) [] (Or.inl rfl)

/-- Claim C8: a non-empty token that starts with neither "s:" nor "c:" is
resolved exactly as the same payload carrying a "c:" marker — the legacy
branch is the client (decryption) branch. -/
theorem claimC8_legacyToken (env : CryptoEnv) (srvGet : ServerGetFn)
    (opts : RefStateOptions) (t salt : Str) (h1 : t ≠ [])
    (h2 : startsWith t sMarker = false) (h3 : startsWith t cMarker = false) :
    getDocumentsFromRefState env srvGet opts t salt =
      getDocumentsFromRefState env srvGet opts (cMarker ++ t) salt := by
  rw [getDocumentsFromRefState_c]
  simp [getDocumentsFromRefState, h1, h2, h3]

/-- Witness for C8 at the unmarked token "x". -/
theorem claimC8_witness :
    getDocumentsFromRefState envA srvGetNone {} ("x".data) [] =
      getDocumentsFromRefState envA srvGetNone {} (cMarker ++ "x".data) [] :=
  claimC8_legacyToken envA srvGetNone {} ("x".data) []
    (by decide) (by decide) (by decide)

/-- Claim C10: for every token beginning with "s:", resolution does not depend
on the salt argument — the same result and the same events for any two salts. -/
theorem claimC10_serverPathIgnoresSalt (env : CryptoEnv) (srvGet : ServerGetFn)
    (opts : RefStateOptions) (t s1 s2 : Str)
    (h : startsWith t sMarker = true) :
    getDocumentsFromRefState env srvGet opts t s1 =
      getDocumentsFromRefState env srvGet opts t s2 := by
  cases t with
  | nil => exact absurd h (by decide)
  | cons a as => simp [getDocumentsFromRefState, h]

/-- Witness for C10 at the token "s:abc" with salts "1" and "2". -/
theorem claimC10_witness :
    getDocumentsFromRefState envA srvGetNone {} (sMarker ++ "abc".data)
        ("1".data) =
      getDocumentsFromRefState envA srvGetNone {} (sMarker ++ "abc".data)
        ("2".data) :=
  claimC10_serverPathIgnoresSalt envA srvGetNone {} (sMarker ++ "abc".data)
    ("1".data) ("2".data) (by decide)

/-- Tokens of the client path never contain a `serverCall` effect. -/
theorem createClientRefState_no_serverCall (env : CryptoEnv)
    (opts : RefStateOptions) (docIds : List Str) (salt name : Str) (ts : Nat) :
    Ev.serverCall ∉ (createClientRefState env opts docIds salt name ts).2 := by
  unfold createClientRefState
  rcases h : env.aesEncrypt (env.jsonStringify (mkPayload docIds name ts))
      (getEncryptionKey opts salt) with _ | enc <;> simp [h]

/-- On server sync with an over-threshold list and a failing server round
trip, `createRefState` returns the client-path result and emits exactly the
server call, the public NETWORK ERROR event raised inside
`createServerRefState`'s catch, the debug log of the fallback, and then the
client-path events. -/
theorem createRefState_fallback_eq (env : CryptoEnv) (srv : ServerCreateFn)
    (opts : RefStateOptions) (docIds : List Str)
    (copts : CreateRefStateOptions) (ts : Nat)
    (hsync : copts.serverSync = true)
    (hlen : opts.maxClientDocs < docIds.length)
    (hsrv : srv docIds copts = .error ()) :
    createRefState env srv opts docIds copts ts =
      ((createClientRefState env opts docIds copts.salt copts.name ts).1,
       Ev.serverCall :: Ev.errorEvent .NETWORK :: Ev.debugLog ::
         (createClientRefState env opts docIds copts.salt copts.name ts).2) := by
  simp [createRefState, createServerRefState, hsync, hlen, hsrv]

/-- Claim C5: with serverSync enabled, a list of length exactly
`maxClientDocs` takes the client path and the server is never invoked, while
a strictly larger list makes `createRefState` attempt the server path. -/
theorem claimC5_threshold (env : CryptoEnv) (srv : ServerCreateFn)
    (opts : RefStateOptions) (docIds : List Str)
    (copts : CreateRefStateOptions) (ts : Nat)
    (hsync : copts.serverSync = true) :
    (docIds.length = opts.maxClientDocs →
      createRefState env srv opts docIds copts ts =
        createClientRefState env opts docIds copts.salt copts.name ts ∧
      Ev.serverCall ∉ (createRefState env srv opts docIds copts ts).2) ∧
    (opts.maxClientDocs < docIds.length →
      Ev.serverCall ∈ (createRefState env srv opts docIds copts ts).2) := by
  constructor
  · intro hlen
    have heq : createRefState env srv opts docIds copts ts =
        createClientRefState env opts docIds copts.salt copts.name ts := by
      simp [createRefState, hsync, hlen]
    refine ⟨heq, ?_⟩
    rw [heq]
    exact createClientRefState_no_serverCall env opts docIds copts.salt
      copts.name ts
  · intro hlen
    rcases hs : srv docIds copts with e | rid <;>
      simp [createRefState, createServerRefState, hsync, hlen, hs]

/-- Witness for C5 at 50 and 51 documents with the default threshold of 50. -/
theorem claimC5_witness :
    (createRefState envA srvOk {} wDocs50 {} 0 =
        createClientRefState envA {} wDocs50 [] [] 0 ∧
      Ev.serverCall ∉ (createRefState envA srvOk {} wDocs50 {} 0).2) ∧
    Ev.serverCall ∈ (createRefState envA srvOk {} wDocs51 {} 0).2 :=
  ⟨(claimC5_threshold envA srvOk {} wDocs50 {} 0 rfl).1 (by decide),
   (claimC5_threshold envA srvOk {} wDocs51 {} 0 rfl).2 (by decide)⟩

/-- Claim C3: if the server path is attempted and fails, `createRefState`
does not fail for that reason — any surfaced error is one the client path
itself produced — and when the client path succeeds the call returns a "c:"
token that resolves back to the same identifier list. -/
theorem claimC3_serverFallback (env : CryptoEnv) (srv : ServerCreateFn)
    (srvGet : ServerGetFn) (opts : RefStateOptions) (docIds : List Str)
    (copts : CreateRefStateOptions) (ts : Nat)
    (hsync : copts.serverSync = true)
    (hlen : opts.maxClientDocs < docIds.length)
    (hsrv : srv docIds copts = .error ()) :
    (∀ e, (createRefState env srv opts docIds copts ts).1 = .error e →
      (createClientRefState env opts docIds copts.salt copts.name ts).1 =
        .error e) ∧
    (∀ c,
      env.aesEncrypt (env.jsonStringify (mkPayload docIds copts.name ts))
        (getEncryptionKey opts copts.salt) = some c →
      env.decodeURIComponent (env.encodeURIComponent c) = some c →
      env.aesDecrypt c (getEncryptionKey opts copts.salt) =
        some (env.jsonStringify (mkPayload docIds copts.name ts)) →
      env.jsonParse (env.jsonStringify (mkPayload docIds copts.name ts)) =
        some (mkPayload docIds copts.name ts) →
      ∃ tok, (createRefState env srv opts docIds copts ts).1 = .ok tok ∧
        startsWith tok cMarker = true ∧
        (getDocumentsFromRefState env srvGet opts tok copts.salt).1 =
          .ok docIds) := by
  have hmain := createRefState_fallback_eq env srv opts docIds copts ts
    hsync hlen hsrv
  constructor
  · intro e he
    rw [hmain] at he
    exact he
  · intro c henc hurl hdec hjson
    have hclient :
        createClientRefState env opts docIds copts.salt copts.name ts =
          (.ok (cMarker ++ env.encodeURIComponent c), []) := by
      simp [createClientRefState, henc]
    refine ⟨cMarker ++ env.encodeURIComponent c, ?_, rfl, ?_⟩
    · rw [hmain]
      simp [hclient]
    · rw [getDocumentsFromRefState_c]
      simp only [getClientRefDocuments, hurl, hdec, hjson]
      simp [mkPayload]

/-- Witness for C3 with 51 documents and an unconditionally failing server. -/
theorem claimC3_witness :
    ∃ tok, (createRefState envB srvFail {} wDocs51 {} 0).1 = .ok tok ∧
      startsWith tok cMarker = true ∧
      (getDocumentsFromRefState envB srvGetNone {} tok []).1 = .ok wDocs51 :=
  (claimC3_serverFallback envB srvFail srvGetNone {} wDocs51 {} 0
      rfl (by decide) rfl).2 ("J".data) rfl rfl rfl rfl

/-- Claim C4 counterexample: with a failing server path and 51 documents, the
fallback run of `createRefState` DOES emit a public ERROR event (of NETWORK
type) to registered observers — `createServerRefState`'s catch block calls
`emitEvent(RefStateEventType.ERROR, refError)` before rethrowing, so the
claim that only a debug-level log fires is false. -/
theorem claimC4_counterexample :
    Ev.errorEvent .NETWORK ∈ (createRefState envA srvFail {} wDocs51 {} 0).2 := by
  decide

/-- Claim C4 as amended: when `createRefState` falls back from a failed
server path, a NETWORK-type ERROR event IS emitted to registered observers
(raised inside `createServerRefState`'s catch) followed by the debug-level
log of the fallback; the server-path error is still not surfaced to the
caller, who sees exactly the client-path result. -/
theorem claimC4_amended (env : CryptoEnv) (srv : ServerCreateFn)
    (opts : RefStateOptions) (docIds : List Str)
    (copts : CreateRefStateOptions) (ts : Nat)
    (hsync : copts.serverSync = true)
    (hlen : opts.maxClientDocs < docIds.length)
    (hsrv : srv docIds copts = .error ()) :
    createRefState env srv opts docIds copts ts =
      ((createClientRefState env opts docIds copts.salt copts.name ts).1,
       Ev.serverCall :: Ev.errorEvent .NETWORK :: Ev.debugLog ::
         (createClientRefState env opts docIds copts.salt copts.name ts).2) :=
  createRefState_fallback_eq env srv opts docIds copts ts hsync hlen hsrv

/-- Witness for the amended C4 at 51 documents. -/
theorem claimC4_witness :
    createRefState envA srvFail {} wDocs51 {} 0 =
      ((createClientRefState envA {} wDocs51 [] [] 0).1,
       Ev.serverCall :: Ev.errorEvent .NETWORK :: Ev.debugLog ::
         (createClientRefState envA {} wDocs51 [] [] 0).2) :=
  claimC4_amended envA srvFail {} wDocs51 {} 0 rfl (by decide) rfl

/-- Claim C2 evaluated at its failing input (the claim is right, the code has
a bug): a record stored at time 0 with a 10ms expiry has `expiresAt = 10`;
`MemoryStorage.has` reports it present regardless of the current time — in
particular after the expiry has passed (time 15, before the eviction timer has
run) — because the source's `has` is `this.storage.has(id)` with no freshness
check; `get` at time 15 correctly reports absence; and at the exact expiry
instant (time 10) `get` still returns the record, while the claim requires
`expiresAt > now`. -/
theorem claimC2_codeBug :
    MemoryStorage.has
      (MemoryStorage.set [] ("k".data) ⟨[], [], 0, false⟩ 10 0) ("k".data) =
      true ∧
    (MemoryStorage.get
      (MemoryStorage.set [] ("k".data) ⟨[], [], 0, false⟩ 10 0)
        ("k".data) 15).1 = none ∧
    ((MemoryStorage.get
      (MemoryStorage.set [] ("k".data) ⟨[], [], 0, false⟩ 10 0)
        ("k".data) 10).1).isSome = true := by decide

/-- Claim C7 evaluated at its failing input (the claim is right about the
browser branch but the Node branch of the code diverges): in the Node
environment the base64 format uses `Buffer.toString('base64')` with no
URL-safe remapping, so with a fresh random draw whose first byte is 0xF8 the
20-character output begins with '+', contradicting the claim that in every
execution environment branch the output contains no '+', '/', or '='. -/
theorem claimC7_codeBug :
    (generateRandomString true (List.replicate 15 0)
      (248 :: List.replicate 14 0) 20 .BASE64).length = 20 ∧
    '+' ∈ generateRandomString true (List.replicate 15 0)
      (248 :: List.replicate 14 0) 20 .BASE64 := by decide

/-- Claim C9: a create request whose `documentIds` is not an array or is an
empty array gets HTTP 400 and leaves the store untouched; a request with a
non-empty array gets a response carrying the reference id and the expiry
stamp, with the record stored under that id. -/
theorem claimC9_createEndpoint (st : MemoryStorage) (body : CreateReqBody)
    (referenceId : Str) (dflt now : Nat) :
    ((body.documentIds = none ∨ body.documentIds = some []) →
      createRefStateMiddlewarePost st body referenceId dflt now =
        (.clientError 400, st)) ∧
    (∀ docs, body.documentIds = some docs → docs ≠ [] →
      createRefStateMiddlewarePost st body referenceId dflt now =
        (.created referenceId (now + falsyOrDefault body.expireIn dflt),
         MemoryStorage.set st referenceId
           { documentIds := docs
             name := body.name
             createdAt := now
             saltUsed := body.saltFlag }
           (falsyOrDefault body.expireIn dflt) now)) := by
  constructor
  · rintro (h | h) <;> simp [createRefStateMiddlewarePost, h]
  · intro docs h hne
    have hlen : ¬docs.length = 0 := by simpa using hne
    simp [createRefStateMiddlewarePost, h, hlen]

/-- Witness for C9: an invalid body gets 400 and stores nothing; a one-element
body gets the created response and the stored record. -/
theorem claimC9_witness :
    createRefStateMiddlewarePost [] { documentIds := none } ("r".data) 5 0 =
      (.clientError 400, []) ∧
    createRefStateMiddlewarePost [] { documentIds := some ["a".data] }
        ("r".data) 5 0 =
      (.created ("r".data) (0 + falsyOrDefault none 5),
       MemoryStorage.set [] ("r".data)
         { documentIds := ["a".data]
           name := "Unnamed".data
           createdAt := 0
           saltUsed := false } (falsyOrDefault none 5) 0) :=
  ⟨(claimC9_createEndpoint [] { documentIds := none } ("r".data) 5 0).1
      (Or.inl rfl),
   (claimC9_createEndpoint [] { documentIds := some ["a".data] }
      ("r".data) 5 0).2 (["a".data]) rfl (by decide)⟩
